import Mathlib

/-
Shallow embedding of the frameport repository core:
  src/include/Interface/frame/IFrame.h      (signal registry, callback engine)
  src/include/Interface/frame/FrameBase.hpp (data block, serializer pair)
  src/include/Interface/port/PortBase.hpp   (port mediation layer)

C++ exceptions are rendered as Except FrameError results; the byte type of
the data block (uint8_t / char) is rendered as Nat; std::any is rendered as
a tagged value over a closed universe of field types.  Thread-level effects
(which worker thread runs a callback) are rendered as event traces: a
publish produces the ordered list of direct invocations and snapshot
enqueues that the C++ loop performs.
-/

set_option autoImplicit false

namespace Frameport

/-- Type tags for the dynamically typed signal values.  Models the dynamic
type of a std::any over a closed universe of field types. -/
inductive Ty where
  | tInt
  | tBool
  | tByte
  deriving DecidableEq

/-- Interpretation of a type tag as a Lean type. -/
def Ty.interp : Ty → Type
  | .tInt => Int
  | .tBool => Bool
  | .tByte => Nat

/-- A dynamically typed value: models a std::any holding a field value. -/
inductive AnyVal where
  | vInt (v : Int)
  | vBool (v : Bool)
  | vByte (v : Nat)
  deriving DecidableEq

/-- Injection of a typed field value into the dynamic value type. -/
def mkAny : (t : Ty) → t.interp → AnyVal
  | .tInt, v => .vInt v
  | .tBool, v => .vBool v
  | .tByte, v => .vByte v

/-- Models std::any_cast of a dynamic value at type t: succeeds exactly when
the dynamic type of the value equals t, as in IFrame.h line 277. -/
def anyCast : (t : Ty) → AnyVal → Option t.interp
  | .tInt, .vInt v => some v
  | .tBool, .vBool v => some v
  | .tByte, .vByte v => some v
  | .tInt, .vBool _ => none
  | .tInt, .vByte _ => none
  | .tBool, .vInt _ => none
  | .tBool, .vByte _ => none
  | .tByte, .vInt _ => none
  | .tByte, .vBool _ => none

/-- The error taxonomy of the core, matching the exceptions thrown in the
source: "Unknown signal" (IFrame.h 283, 290, 297), std::bad_any_cast from
the setter any_cast (IFrame.h 277), "FrameBase: deserialize size mismatch"
(FrameBase.hpp 161), "Frame not found" (PortBase.hpp 298), and
"Use addSnapshotCallback for Threaded policy" (IFrame.h 309). -/
inductive FrameError where
  | unknownSignal
  | typeMismatch
  | sizeMismatch
  | frameNotFound
  | misuse
  deriving DecidableEq

/-- The compile-time layout of a trivially copyable DataT (FrameBase.hpp
line 52 requires TriviallyCopyable).  size models sizeof(DataT); toBytes
models reading the object representation (memcpy out, FrameBase.hpp 156);
ofBytes models overwriting the whole object from a buffer (memcpy in,
FrameBase.hpp 164).  The two laws are the C++ guarantees for trivially
copyable types: the representation has exactly sizeof bytes, and copying an
object representation back restores the value. -/
structure DataRepr (Data : Type) where
  size : Nat
  toBytes : Data → List Nat
  ofBytes : Data → List Nat → Data
  toBytes_length : ∀ d, (toBytes d).length = size
  of_to : ∀ d0 d, ofBytes d0 (toBytes d) = d

/-- A registered field accessor: models the member pointer Field T::* passed
to IFrame::registerSignal (IFrame.h 269).  get reads the field, set writes
it; get_set is the defining property of a data member: reading the field
right after writing it yields the written value. -/
structure SignalDef (Data : Type) where
  ty : Ty
  get : Data → ty.interp
  set : Data → ty.interp → Data
  get_set : ∀ d v, get (set d v) = v

/-- Callback execution policy (IFrame.h 63). -/
inductive CallbackPolicy where
  | direct
  | threaded
  deriving DecidableEq

/-- One entry of callbacks_ (IFrame.h 94).  The closures cb / snapshotCb are
opaque observers and are not stored; the ThreadedData queue of snapshots
(IFrame.h 238) is stored with the oldest snapshot at the front. -/
structure CallbackEntry where
  id : Nat
  policy : CallbackPolicy
  queue : List (List Nat)
  deriving DecidableEq

/-- An observable step of IFrame::notifyCallbacks (IFrame.h 351): a Direct
entry is invoked inline with a reference to the live frame (seen records the
data it observes), a Threaded entry has a serialized snapshot pushed onto
its private queue. -/
inductive NotifyEvent (Data : Type) where
  | direct (id : Nat) (seen : Data)
  | enqueue (id : Nat) (snapshot : List Nat)

/-- The frame state: IFrame (getters_, setters_, callbacks_, nextCallbackId_)
flattened together with FrameBase (data_, serializer_, deserializer_,
instanceName_).  layout carries sizeof(DataT) and the memcpy semantics. -/
structure Frame (Data : Type) where
  instanceName : String
  layout : DataRepr Data
  data : Data
  getters : List (String × (Data → AnyVal))
  setters : List (String × (Data → AnyVal → Except FrameError Data))
  serializer : Data → List Nat
  deserializer : Data → List Nat → Except FrameError Data
  callbacks : List CallbackEntry
  nextCallbackId : Nat

/-- Assignment into an unordered_map modelled as an association list:
overwrite the binding of k if present, otherwise append it. -/
def setAssoc {α : Type} : List (String × α) → String → α → List (String × α)
  | [], k, v => [(k, v)]
  | (k0, v0) :: rest, k, v =>
      if k0 == k then (k, v) :: rest else (k0, v0) :: setAssoc rest k v

/-- The default serializer_ installed by the FrameBase constructor
(FrameBase.hpp 154): a verbatim memcpy of the data block. -/
def defaultSerializer {Data : Type} (R : DataRepr Data) : Data → List Nat :=
  fun d => R.toBytes d

/-- The default deserializer_ installed by the FrameBase constructor
(FrameBase.hpp 159): throw a size mismatch if the buffer length differs
from sizeof(DataT), otherwise memcpy the buffer over the data block. -/
def defaultDeserializer {Data : Type} (R : DataRepr Data) :
    Data → List Nat → Except FrameError Data :=
  fun d buf =>
    if buf.length ≠ R.size then .error .sizeMismatch
    else .ok (R.ofBytes d buf)

/-- The FrameBase constructor (FrameBase.hpp 151): zeroed data block (zero
is the Data value whose representation the memset produces), default
serializer/deserializer pair, no signals, no callbacks, nextCallbackId_ = 1
(IFrame.h 257). -/
def mkFrame {Data : Type} (R : DataRepr Data) (instanceName : String)
    (zero : Data) : Frame Data where
  instanceName := instanceName
  layout := R
  data := zero
  getters := []
  setters := []
  serializer := defaultSerializer R
  deserializer := defaultDeserializer R
  callbacks := []
  nextCallbackId := 1

/-- The getter lambda registerSignal stores in getters_ (IFrame.h 271):
return a copy of the field as a dynamic value. -/
def signalGetter {Data : Type} (sig : SignalDef Data) : Data → AnyVal :=
  fun d => mkAny sig.ty (sig.get d)

/-- The setter lambda registerSignal stores in setters_ (IFrame.h 275):
any_cast the dynamic value to the field type (throwing bad_any_cast on a
dynamic type mismatch, before any write) and assign the field. -/
def signalSetter {Data : Type} (sig : SignalDef Data) :
    Data → AnyVal → Except FrameError Data :=
  fun d v =>
    match anyCast sig.ty v with
    | some w => .ok (sig.set d w)
    | none => .error .typeMismatch

/-- IFrame::registerSignal (IFrame.h 269): bind name to the getter/setter
pair over the given field accessor in both maps. -/
def registerSignal {Data : Type} (fr : Frame Data) (name : String)
    (sig : SignalDef Data) : Frame Data :=
  { fr with
    getters := setAssoc fr.getters name (signalGetter sig)
    setters := setAssoc fr.setters name (signalSetter sig) }

/-- FrameBase::setSerializer (FrameBase.hpp 228). -/
def setSerializer {Data : Type} (fr : Frame Data) (s : Data → List Nat) :
    Frame Data :=
  { fr with serializer := s }

/-- FrameBase::setDeserializer (FrameBase.hpp 235). -/
def setDeserializer {Data : Type} (fr : Frame Data)
    (d : Data → List Nat → Except FrameError Data) : Frame Data :=
  { fr with deserializer := d }

/-- IFrame::getSignal (IFrame.h 281): throw "Unknown signal" if the name is
not in getters_, otherwise return the getter applied to the current data. -/
def getSignal {Data : Type} (fr : Frame Data) (name : String) :
    Except FrameError AnyVal :=
  match fr.getters.lookup name with
  | none => .error .unknownSignal
  | some g => .ok (g fr.data)

/-- IFrame::setSignal (IFrame.h 295): throw "Unknown signal" if the name is
not in setters_, otherwise run the setter (which may throw bad_any_cast). -/
def setSignal {Data : Type} (fr : Frame Data) (name : String) (v : AnyVal) :
    Except FrameError (Frame Data) :=
  match fr.setters.lookup name with
  | none => .error .unknownSignal
  | some st =>
      match st fr.data v with
      | .ok d => .ok { fr with data := d }
      | .error e => .error e

/-- The frame state after a setSignal call under C++ exception semantics:
when the call throws, the state is the one at the throw point.  Both throw
points (unknown name, bad_any_cast in the setter) precede any write, so the
error branch keeps the incoming frame. -/
def setSignalState {Data : Type} (fr : Frame Data) (name : String)
    (v : AnyVal) : Frame Data :=
  match setSignal fr name v with
  | .ok fr2 => fr2
  | .error _ => fr

/-- One iteration of the notifyCallbacks loop body (IFrame.h 353) on one
entry: Direct entries are invoked with the live frame, Threaded entries get
serialize() of the current state pushed onto their queue. -/
def notifyEntry {Data : Type} (fr : Frame Data) (e : CallbackEntry) :
    CallbackEntry × List (NotifyEvent Data) :=
  match e.policy with
  | .direct => (e, [.direct e.id fr.data])
  | .threaded =>
      ({ e with queue := e.queue ++ [fr.serializer fr.data] },
       [.enqueue e.id (fr.serializer fr.data)])

/-- The notifyCallbacks loop over the entry list, front to back, collecting
the events in execution order. -/
def notifyGo {Data : Type} (fr : Frame Data) :
    List CallbackEntry → List CallbackEntry × List (NotifyEvent Data)
  | [] => ([], [])
  | e :: rest =>
      ((notifyEntry fr e).1 :: (notifyGo fr rest).1,
       (notifyEntry fr e).2 ++ (notifyGo fr rest).2)

/-- IFrame::notifyCallbacks (IFrame.h 351): walk callbacks_ in order,
invoking Direct entries inline and enqueueing a fresh snapshot for each
Threaded entry; returns the updated frame and the event trace. -/
def notifyCallbacks {Data : Type} (fr : Frame Data) :
    Frame Data × List (NotifyEvent Data) :=
  ({ fr with callbacks := (notifyGo fr fr.callbacks).1 },
   (notifyGo fr fr.callbacks).2)

/-- IFrame::setSignalWithPublish (IFrame.h 287): run the setter (throwing on
unknown name or type mismatch, before any notification), then notify. -/
def setSignalWithPublish {Data : Type} (fr : Frame Data) (name : String)
    (v : AnyVal) : Except FrameError (Frame Data × List (NotifyEvent Data)) :=
  match fr.setters.lookup name with
  | none => .error .unknownSignal
  | some st =>
      match st fr.data v with
      | .ok d => .ok (notifyCallbacks { fr with data := d })
      | .error e => .error e

/-- FrameBase::serialize (FrameBase.hpp 242): apply serializer_ to the
current data block. -/
def serialize {Data : Type} (fr : Frame Data) : List Nat :=
  fr.serializer fr.data

/-- FrameBase::deserialize (FrameBase.hpp 261): apply deserializer_ to the
data block (the default deserializer throws a size mismatch before any
copy). -/
def deserialize {Data : Type} (fr : Frame Data) (raw : List Nat) :
    Except FrameError (Frame Data) :=
  match fr.deserializer fr.data raw with
  | .ok d => .ok { fr with data := d }
  | .error e => .error e

/-- The frame state after a deserialize call under C++ exception semantics:
on a throw the state is the one at the throw point (the default
deserializer throws before copying any byte). -/
def deserializeState {Data : Type} (fr : Frame Data) (raw : List Nat) :
    Frame Data :=
  match deserialize fr raw with
  | .ok fr2 => fr2
  | .error _ => fr

/-- FrameBase::deserializeWithPublish (FrameBase.hpp 249): run
deserializer_ (exceptions propagate to the caller), then notifyCallbacks,
then return whether the input length equals sizeof(DataT). -/
def deserializeWithPublish {Data : Type} (fr : Frame Data) (raw : List Nat) :
    Except FrameError (Frame Data × List (NotifyEvent Data) × Bool) :=
  match fr.deserializer fr.data raw with
  | .error e => .error e
  | .ok d =>
      .ok ((notifyCallbacks { fr with data := d }).1,
           (notifyCallbacks { fr with data := d }).2,
           raw.length == fr.layout.size)

/-- IFrame::addCallback (IFrame.h 304): draw the next id from the counter
(the fetch_add happens before the policy check, so the id is consumed even
on the throwing path), throw a misuse error for the Threaded policy,
otherwise append a Direct entry. -/
def addCallback {Data : Type} (fr : Frame Data) (policy : CallbackPolicy) :
    Frame Data × Except FrameError Nat :=
  match policy with
  | .threaded =>
      ({ fr with nextCallbackId := fr.nextCallbackId + 1 }, .error .misuse)
  | .direct =>
      ({ fr with
          nextCallbackId := fr.nextCallbackId + 1
          callbacks :=
            fr.callbacks ++ [⟨fr.nextCallbackId, .direct, []⟩] },
       .ok fr.nextCallbackId)

/-- IFrame::addSnapshotCallback (IFrame.h 318): draw the next id and append
a Threaded entry with a fresh empty queue (the spawned worker is modelled
by workerDrain below). -/
def addSnapshotCallback {Data : Type} (fr : Frame Data) :
    Frame Data × Nat :=
  ({ fr with
      nextCallbackId := fr.nextCallbackId + 1
      callbacks := fr.callbacks ++ [⟨fr.nextCallbackId, .threaded, []⟩] },
   fr.nextCallbackId)

/-- The erase step of IFrame::removeCallback (IFrame.h 371): drop the first
entry with the given id, leave the rest in order. -/
def eraseCallback : List CallbackEntry → Nat → List CallbackEntry
  | [], _ => []
  | e :: rest, i => if e.id = i then rest else e :: eraseCallback rest i

/-- IFrame::removeCallback (IFrame.h 369): stop and join the worker of the
matching entry (not observable here), then erase it.  The id counter is
untouched. -/
def removeCallback {Data : Type} (fr : Frame Data) (i : Nat) : Frame Data :=
  { fr with callbacks := eraseCallback fr.callbacks i }

/-- The consumer loop of the worker thread spawned by addSnapshotCallback
(IFrame.h 324), applied to the snapshots it dequeues before exiting: pop
the front of the queue, invoke the callback only when the snapshot is
nonempty, repeat.  Returns the snapshots actually delivered, in order. -/
def workerDrain : List (List Nat) → List (List Nat)
  | [] => []
  | s :: rest => if s = [] then workerDrain rest else s :: workerDrain rest

/-- One publish of the frame at data state d: the data write that precedes
the publish, followed by notifyCallbacks. -/
def publishAt {Data : Type} (fr : Frame Data) (d : Data) :
    Frame Data × List (NotifyEvent Data) :=
  notifyCallbacks { fr with data := d }

/-- A sequence of consecutive publishes, the i-th at data state ds_i. -/
def publishSeq {Data : Type} (fr : Frame Data) : List Data → Frame Data
  | [] => fr
  | d :: ds => publishSeq (publishAt fr d).1 ds

/-- The direct-invocation subtrace of an event list: the (id, observed
data) of each inline callback invocation, in execution order. -/
def directSeen {Data : Type} : List (NotifyEvent Data) → List (Nat × Data)
  | [] => []
  | .direct i d :: rest => (i, d) :: directSeen rest
  | .enqueue _ _ :: rest => directSeen rest

/-- One call against the callback registration surface of a frame:
addCallback with the Direct policy, addCallback with the Threaded policy
(the misuse path, which throws but still consumes an id),
addSnapshotCallback, or removeCallback. -/
inductive CbOp where
  | addDirect
  | addThreadedMisuse
  | addSnapshot
  | remove (i : Nat)

/-- Apply one registration call; the second component is the id returned to
the caller, if the call returns one. -/
def applyCbOp {Data : Type} (fr : Frame Data) : CbOp → Frame Data × Option Nat
  | .addDirect =>
      ((addCallback fr .direct).1, (addCallback fr .direct).2.toOption)
  | .addThreadedMisuse =>
      ((addCallback fr .threaded).1, (addCallback fr .threaded).2.toOption)
  | .addSnapshot =>
      ((addSnapshotCallback fr).1, some (addSnapshotCallback fr).2)
  | .remove i => (removeCallback fr i, none)

/-- Run a sequence of registration calls, collecting every id returned to a
caller, in call order. -/
def runCbOps {Data : Type} (fr : Frame Data) :
    List CbOp → Frame Data × List Nat
  | [] => (fr, [])
  | op :: ops =>
      ((runCbOps (applyCbOp fr op).1 ops).1,
       (applyCbOp fr op).2.toList ++ (runCbOps (applyCbOp fr op).1 ops).2)

/-- The port state (PortBase.hpp 196): instance name, the map of locally
connected frames, and the callback id bookkeeping for unsubscribe. -/
structure Port (Data : Type) where
  instanceName : String
  frames : List (String × Frame Data)
  callbackMap : List (Nat × String)

/-- PortBase::setSignalToFrame (PortBase.hpp 235): fail if the frame is not
connected; otherwise delegate to setSignal, catching every thrown error and
returning it as the boolean false. -/
def Port.setSignalToFrame {Data : Type} (p : Port Data) (frameName : String)
    (signal : String) (v : AnyVal) : Port Data × Bool :=
  match p.frames.lookup frameName with
  | none => (p, false)
  | some fr =>
      match setSignal fr signal v with
      | .ok fr2 => ({ p with frames := setAssoc p.frames frameName fr2 }, true)
      | .error _ => (p, false)

/-- PortBase::setSignalToFrameWithPublish (PortBase.hpp 249): fail if the
frame is not connected; otherwise delegate to setSignalWithPublish,
catching every thrown error and returning it as the boolean false. -/
def Port.setSignalToFrameWithPublish {Data : Type} (p : Port Data)
    (frameName : String) (signal : String) (v : AnyVal) :
    Port Data × Bool × List (NotifyEvent Data) :=
  match p.frames.lookup frameName with
  | none => (p, false, [])
  | some fr =>
      match setSignalWithPublish fr signal v with
      | .ok (fr2, evs) =>
          ({ p with frames := setAssoc p.frames frameName fr2 }, true, evs)
      | .error _ => (p, false, [])

/-- PortBase::setRawDataToFrame (PortBase.hpp 263): fail if the frame is
not connected; otherwise enter writeRawData, copy the buffer over the data
block only when the caller size equals sizeof(DataT), and report whether
the copy happened. -/
def Port.setRawDataToFrame {Data : Type} (p : Port Data) (frameName : String)
    (buf : List Nat) : Port Data × Bool :=
  match p.frames.lookup frameName with
  | none => (p, false)
  | some fr =>
      if buf.length = fr.layout.size then
        ({ p with
            frames := setAssoc p.frames frameName
              { fr with data := fr.layout.ofBytes fr.data buf } },
         true)
      else (p, false)

/-- PortBase::setRawDataToFrameWithPublish (PortBase.hpp 279): as
setRawDataToFrame, and notifyCallbacks runs only when the copy happened. -/
def Port.setRawDataToFrameWithPublish {Data : Type} (p : Port Data)
    (frameName : String) (buf : List Nat) :
    Port Data × Bool × List (NotifyEvent Data) :=
  match p.frames.lookup frameName with
  | none => (p, false, [])
  | some fr =>
      if buf.length = fr.layout.size then
        ({ p with
            frames := setAssoc p.frames frameName
              (notifyCallbacks { fr with data := fr.layout.ofBytes fr.data buf }).1 },
         true,
         (notifyCallbacks { fr with data := fr.layout.ofBytes fr.data buf }).2)
      else (p, false, [])

/-- PortBase::getSignalFromFrameAsAny (PortBase.hpp 295): throw "Frame not
found" if the frame is not connected, otherwise return getSignal with no
catch: frame errors propagate to the caller. -/
def Port.getSignalFromFrameAsAny {Data : Type} (p : Port Data)
    (frameName : String) (signal : String) : Except FrameError AnyVal :=
  match p.frames.lookup frameName with
  | none => .error .frameNotFound
  | some fr => getSignal fr signal

/-- PortBase::getRawDataFromFrame (PortBase.hpp 303): fail if the frame is
not connected, otherwise hand the byte image of the data block to the
caller and return true. -/
def Port.getRawDataFromFrame {Data : Type} (p : Port Data)
    (frameName : String) : Bool × Option (List Nat) :=
  match p.frames.lookup frameName with
  | none => (false, none)
  | some fr => (true, some (fr.layout.toBytes fr.data))

/-- A one-byte concrete data type for evaluating the model: DataT = a
struct holding a single boolean flag, sizeof = 1, represented by the byte 1
or 0. -/
def boolRepr : DataRepr Bool where
  size := 1
  toBytes d := [if d then 1 else 0]
  ofBytes _ buf := buf == [1]
  toBytes_length d := by cases d <;> rfl
  of_to d0 d := by cases d <;> rfl

/-- The whole-struct field accessor of the concrete boolean data type. -/
def exSig : SignalDef Bool where
  ty := .tBool
  get d := d
  set _ v := v
  get_set _ _ := rfl

/-- A concrete frame with one registered boolean signal named "sig" and the
default serializer pair. -/
def exFrame : Frame Bool :=
  registerSignal (mkFrame boolRepr "F" false) "sig" exSig

/-- A concrete frame with no registered signals and the default serializer
pair. -/
def exFrameBare : Frame Bool := mkFrame boolRepr "G" false

-- ---------------------------------------------------------------------
-- Helper lemmas
-- ---------------------------------------------------------------------

theorem anyCast_mkAny (t : Ty) (v : t.interp) : anyCast t (mkAny t v) = some v := by
  cases t <;> rfl

-- ---------------------------------------------------------------------
-- C1  set-then-get returns the written value
-- ---------------------------------------------------------------------

/-- C1.  For every signal name s bound (by registerSignal) to a field
accessor sig on a frame, and every value v whose dynamic type equals the
declared field type sig.ty, setSignal(s, mkAny sig.ty v) succeeds and a
following getSignal(s) returns exactly mkAny sig.ty v: the getter yields a
copy of the field just written. -/
theorem setSignal_then_getSignal {Data : Type} (fr : Frame Data) (s : String)
    (sig : SignalDef Data) (v : sig.ty.interp)
    (hg : fr.getters.lookup s = some (signalGetter sig))
    (hs : fr.setters.lookup s = some (signalSetter sig)) :
    (setSignal fr s (mkAny sig.ty v)).bind (fun fr2 => getSignal fr2 s) =
      .ok (mkAny sig.ty v) := by
  simp [setSignal, hs, signalSetter, anyCast_mkAny, Except.bind, getSignal,
    hg, signalGetter, sig.get_set]

/-- Witness for C1 at a concrete frame: writing true into the boolean
signal "sig" and reading it back yields true. -/
theorem setSignal_then_getSignal_witness :
    (setSignal exFrame "sig" (mkAny .tBool true)).bind
        (fun fr2 => getSignal fr2 "sig") =
      .ok (mkAny .tBool true) :=
  setSignal_then_getSignal exFrame "sig" exSig true rfl rfl

-- ---------------------------------------------------------------------
-- C3  unknown signal name: both accessors fail, state unchanged
-- ---------------------------------------------------------------------

/-- C3.  For every name u not registered on the frame (absent from both
accessor maps), getSignal(u) and setSignal(u, v) both fail with the
UnknownSignal error, and the frame (in particular its data block) is left
unchanged: both throws happen at the failed lookup, before any write. -/
theorem unknownSignal_get_set {Data : Type} (fr : Frame Data) (u : String)
    (v : AnyVal)
    (hg : fr.getters.lookup u = none)
    (hs : fr.setters.lookup u = none) :
    getSignal fr u = .error .unknownSignal ∧
    setSignal fr u v = .error .unknownSignal ∧
    setSignalState fr u v = fr := by
  refine ⟨?_, ?_, ?_⟩ <;> simp [getSignal, setSignal, setSignalState, hg, hs]

/-- Witness for C3 at a concrete frame: the name "missing" was never
registered on exFrame. -/
theorem unknownSignal_get_set_witness :
    getSignal exFrame "missing" = .error .unknownSignal ∧
    setSignal exFrame "missing" (mkAny .tBool true) = .error .unknownSignal ∧
    setSignalState exFrame "missing" (mkAny .tBool true) = exFrame :=
  unknownSignal_get_set exFrame "missing" (mkAny .tBool true) rfl rfl

-- ---------------------------------------------------------------------
-- C4  deserialize with a wrong-length buffer
-- ---------------------------------------------------------------------

/-- C4.  For every buffer whose length differs from the fixed data size
sizeof(DataT), deserialize with the default deserializer fails with the
SizeMismatch error and leaves the frame unchanged: the throw happens at the
length check, before any byte is copied. -/
theorem deserialize_default_sizeMismatch {Data : Type} (fr : Frame Data)
    (raw : List Nat)
    (hd : fr.deserializer = defaultDeserializer fr.layout)
    (hlen : raw.length ≠ fr.layout.size) :
    deserialize fr raw = .error .sizeMismatch ∧
    deserializeState fr raw = fr := by
  refine ⟨?_, ?_⟩ <;>
    simp [deserialize, deserializeState, hd, defaultDeserializer, hlen]

/-- Witness for C4 at a concrete frame: the empty buffer has length 0,
while the fixed data size is 1. -/
theorem deserialize_default_sizeMismatch_witness :
    deserialize exFrameBare [] = .error .sizeMismatch ∧
    deserializeState exFrameBare [] = exFrameBare :=
  deserialize_default_sizeMismatch exFrameBare [] rfl (by decide)

-- ---------------------------------------------------------------------
-- C8  default serializer round trip
-- ---------------------------------------------------------------------

/-- C8.  For every frame carrying the default serializer/deserializer pair,
deserialize(serialize()) succeeds and returns the frame with its data block
byte-for-byte unchanged: serialize is the verbatim fixed-size copy, whose
length always passes the deserializer check, and copying it back restores
the data. -/
theorem deserialize_serialize_roundtrip {Data : Type} (fr : Frame Data)
    (hs : fr.serializer = defaultSerializer fr.layout)
    (hd : fr.deserializer = defaultDeserializer fr.layout) :
    deserialize fr (serialize fr) = .ok fr := by
  obtain ⟨nm, L, d, gs, ss, sz, dz, cbs, nid⟩ := fr
  simp only at hs hd
  subst hs hd
  simp [serialize, deserialize, defaultSerializer, defaultDeserializer,
    L.toBytes_length, L.of_to]

/-- Witness for C8 at a concrete frame with the default pair. -/
theorem deserialize_serialize_roundtrip_witness :
    deserialize exFrameBare (serialize exFrameBare) = .ok exFrameBare :=
  deserialize_serialize_roundtrip exFrameBare rfl rfl

-- ---------------------------------------------------------------------
-- C2  deserializeWithPublish and the length-match return value
-- ---------------------------------------------------------------------

/-- Counterexample for C2 as stated.  On a frame with the default
deserializer and an input of the wrong length (the empty buffer against
fixed size 1), deserializeWithPublish does not return the boolean false: it
propagates the SizeMismatch exception thrown by the default deserializer,
so the caller never receives a length-match indication as a return value. -/
theorem deserializeWithPublish_mismatch_throws :
    deserializeWithPublish exFrameBare [] = .error .sizeMismatch := rfl

/-- C2 as amended.  deserializeWithPublish runs the installed deserializer
first; with the default deserializer, a buffer of matching length is
written, subscribers are notified, and the call returns true (the
length-match indication), while a buffer of mismatched length makes the
call fail with SizeMismatch — the write is skipped and nobody is notified —
instead of returning false. -/
theorem deserializeWithPublish_default {Data : Type} (fr : Frame Data)
    (raw : List Nat)
    (hd : fr.deserializer = defaultDeserializer fr.layout) :
    (raw.length = fr.layout.size →
      deserializeWithPublish fr raw =
        .ok ((notifyCallbacks { fr with data := fr.layout.ofBytes fr.data raw }).1,
             (notifyCallbacks { fr with data := fr.layout.ofBytes fr.data raw }).2,
             true)) ∧
    (raw.length ≠ fr.layout.size →
      deserializeWithPublish fr raw = .error .sizeMismatch) := by
  constructor <;> intro h <;>
    simp [deserializeWithPublish, hd, defaultDeserializer, h]

/-- Witness for the amended C2 at a concrete frame: a one-byte buffer is
written, published and acknowledged with true; the empty buffer raises
SizeMismatch. -/
theorem deserializeWithPublish_default_witness :
    deserializeWithPublish exFrameBare [1] =
      .ok ((notifyCallbacks { exFrameBare with
              data := exFrameBare.layout.ofBytes exFrameBare.data [1] }).1,
           (notifyCallbacks { exFrameBare with
              data := exFrameBare.layout.ofBytes exFrameBare.data [1] }).2,
           true) ∧
    deserializeWithPublish exFrameBare [] = .error .sizeMismatch :=
  ⟨(deserializeWithPublish_default exFrameBare [1] rfl).1 (by decide),
   (deserializeWithPublish_default exFrameBare [] rfl).2 (by decide)⟩

-- ---------------------------------------------------------------------
-- C10  raw writes are gated on the exact fixed size
-- ---------------------------------------------------------------------

/-- C10.  For every connected frame and buffer: when the buffer length
differs from the fixed data size, setRawDataToFrame and
setRawDataToFrameWithPublish return false, leave the port (and so the
frame data) unchanged, and the WithPublish variant notifies nobody; when
the length matches, both write the buffer over the data block and return
true, and only then does the WithPublish variant notify. -/
theorem setRawData_size_gate {Data : Type} (p : Port Data) (fn : String)
    (fr : Frame Data) (buf : List Nat)
    (hf : p.frames.lookup fn = some fr) :
    (buf.length ≠ fr.layout.size →
      Port.setRawDataToFrame p fn buf = (p, false) ∧
      Port.setRawDataToFrameWithPublish p fn buf = (p, false, [])) ∧
    (buf.length = fr.layout.size →
      Port.setRawDataToFrame p fn buf =
        ({ p with frames := setAssoc p.frames fn ({ fr with data := fr.layout.ofBytes fr.data buf }) }, true) ∧
      Port.setRawDataToFrameWithPublish p fn buf =
        ({ p with frames := setAssoc p.frames fn ((notifyCallbacks { fr with data := fr.layout.ofBytes fr.data buf }).1) },
         true,
         (notifyCallbacks { fr with data := fr.layout.ofBytes fr.data buf }).2)) := by
  constructor <;> intro h <;> constructor <;>
    simp [Port.setRawDataToFrame, Port.setRawDataToFrameWithPublish, hf, h]

/-- A concrete port connected to the bare frame under the name "G". -/
def exPort : Port Bool where
  instanceName := "P"
  frames := [("G", exFrameBare)]
  callbackMap := []

/-- Witness for C10 at a concrete port: a two-byte buffer against fixed
size 1 is rejected with no write and no notification; a one-byte buffer is
written, acknowledged and published. -/
theorem setRawData_size_gate_witness :
    (Port.setRawDataToFrame exPort "G" [1, 2] = (exPort, false) ∧
     Port.setRawDataToFrameWithPublish exPort "G" [1, 2] = (exPort, false, [])) ∧
    (Port.setRawDataToFrame exPort "G" [1] =
      ({ exPort with frames := setAssoc exPort.frames "G" ({ exFrameBare with data := exFrameBare.layout.ofBytes exFrameBare.data [1] }) }, true) ∧
     Port.setRawDataToFrameWithPublish exPort "G" [1] =
      ({ exPort with frames := setAssoc exPort.frames "G" ((notifyCallbacks ({ exFrameBare with data := exFrameBare.layout.ofBytes exFrameBare.data [1] })).1) },
       true,
       (notifyCallbacks ({ exFrameBare with data := exFrameBare.layout.ofBytes exFrameBare.data [1] })).2)) :=
  ⟨(setRawData_size_gate exPort "G" exFrameBare [1, 2] rfl).1 (by decide),
   (setRawData_size_gate exPort "G" exFrameBare [1] rfl).2 (by decide)⟩

-- ---------------------------------------------------------------------
-- C7  error absorption at the port boundary
-- ---------------------------------------------------------------------

/-- Counterexample for C7 as stated.  On a port connected to a frame, a
signal read of an unregistered name is NOT converted into a boolean
result: PortBase::getSignalFromFrameAsAny has no catch, so the
UnknownSignal error thrown by the frame propagates to the caller as an
exception. -/
theorem getSignalFromFrameAsAny_propagates :
    Port.getSignalFromFrameAsAny exPort "G" "missing" =
      .error .unknownSignal := rfl

/-- C7 as amended.  At the port boundary, the signal write paths absorb
frame validation failures: when the frame-level call throws,
setSignalToFrame and setSignalToFrameWithPublish return the boolean false
with the port unchanged.  The signal read path does not: when getSignal
throws, getSignalFromFrameAsAny propagates the same error to the caller
(and throws FrameNotFound itself on an unconnected name). -/
theorem port_error_translation {Data : Type} (p : Port Data) (fn : String)
    (s : String) (v : AnyVal) (fr : Frame Data)
    (e1 e2 e3 : FrameError)
    (hf : p.frames.lookup fn = some fr)
    (h1 : setSignal fr s v = .error e1)
    (h2 : setSignalWithPublish fr s v = .error e2)
    (h3 : getSignal fr s = .error e3) :
    Port.setSignalToFrame p fn s v = (p, false) ∧
    Port.setSignalToFrameWithPublish p fn s v = (p, false, []) ∧
    Port.getSignalFromFrameAsAny p fn s = .error e3 := by
  refine ⟨?_, ?_, ?_⟩ <;>
    simp [Port.setSignalToFrame, Port.setSignalToFrameWithPublish,
      Port.getSignalFromFrameAsAny, hf, h1, h2, h3]

/-- Witness for the amended C7 at a concrete port: the unregistered name
"missing" makes both set paths return false with the port unchanged, while
the read path surfaces the UnknownSignal error itself. -/
theorem port_error_translation_witness :
    Port.setSignalToFrame exPort "G" "missing" (mkAny .tBool true) =
      (exPort, false) ∧
    Port.setSignalToFrameWithPublish exPort "G" "missing" (mkAny .tBool true) =
      (exPort, false, []) ∧
    Port.getSignalFromFrameAsAny exPort "G" "missing" =
      .error FrameError.unknownSignal :=
  port_error_translation exPort "G" "missing" (mkAny .tBool true) exFrameBare
    .unknownSignal .unknownSignal .unknownSignal rfl rfl rfl rfl

-- ---------------------------------------------------------------------
-- C5  direct subscribers fire once each, in registration order
-- ---------------------------------------------------------------------

/-- The ids of the Direct entries of a callback list, in list order.
Registration (addCallback) appends at the back, so list order is
registration order. -/
def directIds : List CallbackEntry → List Nat
  | [] => []
  | e :: rest =>
      match e.policy with
      | .direct => e.id :: directIds rest
      | .threaded => directIds rest

theorem directSeen_append {Data : Type} (a b : List (NotifyEvent Data)) :
    directSeen (a ++ b) = directSeen a ++ directSeen b := by
  induction a with
  | nil => rfl
  | cons e rest ih => cases e <;> simp [directSeen, ih]

theorem directSeen_notifyGo {Data : Type} (fr : Frame Data)
    (cbs : List CallbackEntry) :
    directSeen (notifyGo fr cbs).2 =
      (directIds cbs).map (fun i => (i, fr.data)) := by
  induction cbs with
  | nil => rfl
  | cons e rest ih =>
      cases hp : e.policy <;>
        simp [notifyGo, notifyEntry, directIds, hp, directSeen,
          directSeen_append, ih]

/-- C5.  For every port connected to a frame, a registered signal and a
correctly typed value (the setter succeeds, writing d2), one
setSignalToFrameWithPublish call returns true and its trace of inline
Direct invocations is exactly one invocation per Direct subscriber, in
registration order, each performed synchronously during the call and
observing the frame after the signal value d2 has been written. -/
theorem setSignalToFrameWithPublish_direct_order {Data : Type}
    (p : Port Data) (fn s : String) (v : AnyVal) (fr : Frame Data)
    (st : Data → AnyVal → Except FrameError Data) (d2 : Data)
    (hf : p.frames.lookup fn = some fr)
    (hst : fr.setters.lookup s = some st)
    (hok : st fr.data v = .ok d2) :
    (Port.setSignalToFrameWithPublish p fn s v).2.1 = true ∧
    directSeen (Port.setSignalToFrameWithPublish p fn s v).2.2 =
      (directIds fr.callbacks).map (fun i => (i, d2)) := by
  have h := directSeen_notifyGo { fr with data := d2 } fr.callbacks
  refine ⟨?_, ?_⟩ <;>
    simp [Port.setSignalToFrameWithPublish, setSignalWithPublish, hf, hst,
      hok, notifyCallbacks, h]

/-- A concrete frame with the boolean signal and two Direct subscribers,
registered in order (they receive the ids 1 and 2). -/
def exFrameDirect : Frame Bool :=
  (addCallback (addCallback exFrame .direct).1 .direct).1

/-- A concrete port connected to exFrameDirect under the name "F". -/
def exPortDirect : Port Bool where
  instanceName := "P2"
  frames := [("F", exFrameDirect)]
  callbackMap := []

/-- Witness for C5 at a concrete port: publishing true into "sig" invokes
the two Direct subscribers once each, as ids 1 then 2, both observing the
written value. -/
theorem setSignalToFrameWithPublish_direct_order_witness :
    (Port.setSignalToFrameWithPublish exPortDirect "F" "sig"
        (mkAny .tBool true)).2.1 = true ∧
    directSeen (Port.setSignalToFrameWithPublish exPortDirect "F" "sig"
        (mkAny .tBool true)).2.2 =
      (directIds exFrameDirect.callbacks).map (fun i => (i, true)) :=
  setSignalToFrameWithPublish_direct_order exPortDirect "F" "sig"
    (mkAny .tBool true) exFrameDirect (signalSetter exSig) true rfl rfl rfl

-- ---------------------------------------------------------------------
-- C6  threaded subscriptions: enqueue per publish, FIFO delivery
-- ---------------------------------------------------------------------

theorem workerDrain_eq_self (q : List (List Nat)) (h : ∀ s ∈ q, s ≠ []) :
    workerDrain q = q := by
  induction q with
  | nil => rfl
  | cons s rest ih =>
      have hs : s ≠ [] := h s (by simp)
      simp [workerDrain, hs, ih fun x hx => h x (by simp [hx])]

theorem notifyGo_fst {Data : Type} (fr : Frame Data)
    (cbs : List CallbackEntry) :
    (notifyGo fr cbs).1 = cbs.map (fun e => (notifyEntry fr e).1) := by
  induction cbs with
  | nil => rfl
  | cons e rest ih => simp [notifyGo, ih]

/-- After a sequence of publishes at data states ds, a Threaded entry at
position k has had exactly one snapshot appended per publish, in publish
order, each being serialize() of the state at its own publish moment. -/
theorem publishSeq_threaded_queue {Data : Type} (fr : Frame Data)
    (ds : List Data) (k : Nat) (i : Nat) (q : List (List Nat))
    (hk : fr.callbacks.get? k = some ⟨i, .threaded, q⟩) :
    (publishSeq fr ds).callbacks.get? k =
      some ⟨i, .threaded, q ++ ds.map fr.serializer⟩ := by
  induction ds generalizing fr q with
  | nil => simpa using hk
  | cons d rest ih =>
      have hmap : ((publishAt fr d).1).callbacks = fr.callbacks.map
          (fun e => (notifyEntry { fr with data := d } e).1) := by
        simp [publishAt, notifyCallbacks, notifyGo_fst]
      have hk1 : ((publishAt fr d).1).callbacks.get? k =
          some ⟨i, .threaded, q ++ [fr.serializer d]⟩ := by
        rw [hmap, List.get?_map, hk]
        rfl
      have hser : ((publishAt fr d).1).serializer = fr.serializer := rfl
      have := ih (publishAt fr d).1 (q ++ [fr.serializer d]) hk1
      rw [hser] at this
      simpa [publishSeq, List.append_assoc] using this

/-- C6 as amended.  For a Threaded subscription with an empty queue, M
consecutive publishes (the j-th at frame state ds_j) enqueue exactly M
snapshots, in publish order, each equal to serialize() of the frame state
at its own publish; and provided every such snapshot is nonempty (always
true for the default serializer, whose output length is the fixed data
size), the worker delivers exactly those M snapshots to the callback, in
the same order, before it drains. -/
theorem threaded_publishes_enqueued_and_delivered {Data : Type}
    (fr : Frame Data) (ds : List Data) (k : Nat) (i : Nat)
    (hk : fr.callbacks.get? k = some ⟨i, .threaded, []⟩)
    (hne : ∀ d ∈ ds, fr.serializer d ≠ []) :
    (publishSeq fr ds).callbacks.get? k =
      some ⟨i, .threaded, ds.map fr.serializer⟩ ∧
    workerDrain (ds.map fr.serializer) = ds.map fr.serializer ∧
    (ds.map fr.serializer).length = ds.length := by
  refine ⟨?_, ?_, by simp⟩
  · simpa using publishSeq_threaded_queue fr ds k i [] hk
  · exact workerDrain_eq_self _ (by
      intro s hs
      obtain ⟨d, hd, rfl⟩ := List.mem_map.mp hs
      exact hne d hd)

/-- A concrete frame with one Threaded subscription (id 1, empty queue)
and the default serializer. -/
def exFrameThreaded : Frame Bool := (addSnapshotCallback exFrameBare).1

/-- Witness for the amended C6 at a concrete frame: two publishes enqueue
two one-byte snapshots, in order, and the worker delivers both. -/
theorem threaded_publishes_enqueued_and_delivered_witness :
    (publishSeq exFrameThreaded [true, false]).callbacks.get? 0 =
      some ⟨1, .threaded, [true, false].map exFrameThreaded.serializer⟩ ∧
    workerDrain ([true, false].map exFrameThreaded.serializer) =
      [true, false].map exFrameThreaded.serializer ∧
    ([true, false].map exFrameThreaded.serializer).length =
      [true, false].length :=
  threaded_publishes_enqueued_and_delivered exFrameThreaded [true, false]
    0 1 rfl (by decide)

/-- Counterexample for C6 as stated.  The worker loop invokes the callback
only on nonempty snapshots (IFrame.h 338), and the serializer is
replaceable per instance (FrameBase::setSerializer).  On a frame whose
installed serializer produces the empty byte vector, a single publish
(M = 1) enqueues one snapshot, but the worker delivers zero snapshots to
the callback — the enqueued-and-delivered counts are (1, 0), not (1, 1). -/
theorem threaded_empty_snapshot_dropped :
    (publishSeq ((addSnapshotCallback
          (setSerializer exFrameBare (fun _ => []))).1) [true]).callbacks.map
        (fun e => (e.queue.length, (workerDrain e.queue).length)) =
      [(1, 0)] := rfl

-- ---------------------------------------------------------------------
-- C9  callback ids: unique, strictly increasing, never reused
-- ---------------------------------------------------------------------

theorem applyCbOp_spec {Data : Type} (fr : Frame Data) (op : CbOp) :
    ((applyCbOp fr op).2 = none ∨
      ((applyCbOp fr op).2 = some fr.nextCallbackId ∧
       ((applyCbOp fr op).1).nextCallbackId = fr.nextCallbackId + 1)) ∧
    fr.nextCallbackId ≤ ((applyCbOp fr op).1).nextCallbackId := by
  cases op with
  | addDirect => exact ⟨.inr ⟨rfl, rfl⟩, Nat.le_succ _⟩
  | addThreadedMisuse => exact ⟨.inl rfl, Nat.le_succ _⟩
  | addSnapshot => exact ⟨.inr ⟨rfl, rfl⟩, Nat.le_succ _⟩
  | remove i => exact ⟨.inl rfl, Nat.le_refl _⟩

theorem runCbOps_issued {Data : Type} (fr : Frame Data) (ops : List CbOp) :
    (∀ i ∈ (runCbOps fr ops).2, fr.nextCallbackId ≤ i) ∧
    ((runCbOps fr ops).2).Pairwise (· < ·) := by
  induction ops generalizing fr with
  | nil => exact ⟨by simp [runCbOps], by simp [runCbOps]⟩
  | cons op ops ih =>
      obtain ⟨hspec, hle⟩ := applyCbOp_spec fr op
      obtain ⟨ih1, ih2⟩ := ih (applyCbOp fr op).1
      cases hspec with
      | inl hnone =>
          refine ⟨?_, ?_⟩
          · intro i hi
            simp only [runCbOps, hnone, Option.toList_none, List.nil_append]
              at hi
            exact le_trans hle (ih1 i hi)
          · simp only [runCbOps, hnone, Option.toList_none, List.nil_append]
            exact ih2
      | inr hsome =>
          obtain ⟨hid, hnext⟩ := hsome
          refine ⟨?_, ?_⟩
          · intro i hi
            simp only [runCbOps, hid, Option.toList_some,
              List.singleton_append, List.mem_cons] at hi
            cases hi with
            | inl h => exact le_of_eq h.symm
            | inr h =>
                have := ih1 i h
                omega
          · simp only [runCbOps, hid, Option.toList_some,
              List.singleton_append, List.pairwise_cons]
            refine ⟨?_, ih2⟩
            intro j hj
            have := ih1 j hj
            omega

/-- C9.  For every sequence of calls against the callback registration
surface of a fresh frame — addCallback (Direct or the throwing Threaded
misuse path), addSnapshotCallback and removeCallback interleaved freely —
the ids returned to callers form a strictly increasing sequence, and hence
are pairwise distinct: removeCallback never touches the id counter, so no
previously issued id is ever issued again. -/
theorem callback_ids_unique_increasing {Data : Type} (R : DataRepr Data)
    (name : String) (zero : Data) (ops : List CbOp) :
    ((runCbOps (mkFrame R name zero) ops).2).Pairwise (· < ·) ∧
    ((runCbOps (mkFrame R name zero) ops).2).Nodup :=
  ⟨(runCbOps_issued _ ops).2,
   ((runCbOps_issued _ ops).2).imp fun h => Nat.ne_of_lt h⟩

end Frameport
